import Mathlib

/-!
Shallow embedding of the streaming chat backend in src/main.py
(chatbot-autogen): the persistence store (Users, Conversations,
Messages), the chat-stream turn pipeline (`chat_stream` and its inner
`event_generator`), and the title pipeline
(`generate_conversation_title`), together with theorems settling the
specification claims about them.

Modelling conventions:
- Database state is an explicit `Store` value threaded through the
  operations.  `Message.createdAt` timestamps are issued by a strictly
  increasing store clock, so the message list is kept in chronological
  order and a query ordered by `createdAt` is a `filter` of that list.
- Python string operations over title strings are modelled over
  `Char` lists: `str.strip()` is `pyStrip`, `str.replace(c, "")` is
  `pyRemoveChar`, slicing `s[:n]` is `pySlice`.
- The completion provider is abstract: the streamed provider response
  is a list of events (with the duck-typed `hasattr(event, "content")`
  check modelled by a Boolean field), and a possible exception raised
  by the stream or by the later persistence call is an explicit
  `Option String` parameter carrying the exception message.
-/

namespace ChatbotAutogen

/-- A row of the `Message` table (src/main.py lines 72-79).  `createdAt`
is an abstract clock tick. -/
structure Message where
  id : String
  role : String
  content : String
  conversationId : String
  createdAt : Nat
  deriving Repr, DecidableEq

/-- A row of the `Conversation` table (src/main.py lines 63-70). -/
structure Conversation where
  id : String
  title : String
  userId : String
  createdAt : Nat
  deriving Repr, DecidableEq

/-- The persistence store: conversations and messages, plus the clock
issuing strictly increasing `createdAt` timestamps.  Messages are
appended in clock order, so the list order is the chronological order
used by the `ORDER BY createdAt` queries. -/
structure Store where
  conversations : List Conversation
  messages : List Message
  clock : Nat
  deriving Repr, DecidableEq

/-- Body of the request schema `ChatRequest` (src/main.py lines 105-108). -/
structure ChatRequest where
  user_id : String
  conv_id : String
  prompt : String
  deriving Repr, DecidableEq

/-- Role label used when rendering history: `"User" if msg.role == "user"
else "Assistant"` (src/main.py lines 400 and 471). -/
def roleLabel (role : String) : String :=
  if role == "user" then "User" else "Assistant"

/-- `select(Conversation).where(Conversation.id == conv_id)` followed by
`scalar_one_or_none()` (src/main.py lines 309-310). -/
def find_conversation (db : Store) (conv_id : String) : Option Conversation :=
  db.conversations.find? (fun c => c.id == conv_id)

/-- Helper `save_message` (src/main.py lines 292-304): build a `Message`
with a fresh id and the current time and commit it.  The fresh uuid is
modelled by the clock value, which is unique because the clock is
strictly increasing. -/
def save_message (db : Store) (conv_id role content : String) : Store :=
  { db with
    messages := db.messages ++
      [{ id := toString db.clock, role := role, content := content,
         conversationId := conv_id, createdAt := db.clock }],
    clock := db.clock + 1 }

/-- `get_or_create_conversation` (src/main.py lines 307-322): look the
conversation up by id only; when absent, create it owned by `user_id`
with the placeholder title. -/
def get_or_create_conversation (db : Store) (user_id conv_id : String) :
    Store × Conversation :=
  match find_conversation db conv_id with
  | some conv => (db, conv)
  | none =>
    let conv : Conversation :=
      { id := conv_id, title := "New Conversation", userId := user_id,
        createdAt := db.clock }
    ({ db with conversations := db.conversations ++ [conv], clock := db.clock + 1 },
     conv)

/-- `select(Message).where(Message.conversationId == conv_id)
.order_by(Message.createdAt)` (src/main.py lines 389-392 and 458-462):
since the store keeps messages in clock order, the ordered query is the
filter of the message list. -/
def conversation_messages (db : Store) (conv_id : String) : List Message :=
  db.messages.filter (fun m => m.conversationId == conv_id)

/-- The `conversation_context` string built from history (src/main.py
lines 396-402): empty for an empty history, otherwise a header, one
role-labelled line per prior message in chronological order, and the
trailing `"\nCurrent user message: "` fragment. -/
def build_context (history : List Message) : String :=
  if history.isEmpty then ""
  else
    (history.foldl
      (fun acc m => acc ++ roleLabel m.role ++ ": " ++ m.content ++ "\n")
      "Previous conversation:\n") ++ "\nCurrent user message: "

/-- State of the `chat_stream` handler after its body ran and before the
`StreamingResponse` generator is consumed (src/main.py lines 385-405):
the store after the conversation was resolved and the user message
saved, plus the rendered (and, in the code, unused) history context. -/
structure ChatSetup where
  db : Store
  conversation_context : String
  deriving Repr, DecidableEq

/-- The body of `chat_stream` before streaming (src/main.py lines
385-405): resolve or create the conversation, load the ordered history,
render the context string, then save the user message. -/
def chat_stream_setup (db : Store) (current_user_id : String) (req : ChatRequest) :
    ChatSetup :=
  let db1 := (get_or_create_conversation db current_user_id req.conv_id).1
  let history := conversation_messages db1 req.conv_id
  let ctx := build_context history
  let db2 := save_message db1 req.conv_id "user" req.prompt
  { db := db2, conversation_context := ctx }

/-- One event yielded by `openai_agent.on_messages_stream` (src/main.py
line 417).  `hasContent` models the duck-typed
`hasattr(event, "content")` check; `content` is the string content when
present.  Python truthiness of `event.content` is emptiness of the
string. -/
structure StreamEvent where
  hasContent : Bool
  content : String
  deriving Repr, DecidableEq

/-- One server-sent event yielded by `event_generator`: there are
exactly three yield sites (src/main.py lines 421, 428, 432), producing a
raw chunk payload, the literal `[DONE]` payload, or an
`Error: <message>` payload. -/
inductive SSE where
  | chunk (text : String)
  | done
  | error (msg : String)
  deriving Repr, DecidableEq

/-- Whether an event is one of the two terminal markers. -/
def SSE.isTerminal : SSE → Bool
  | .chunk _ => false
  | .done => true
  | .error _ => true

/-- The wire form of an event: the `data:` payload written by the three
yield statements. -/
def SSE.toWire : SSE → String
  | .chunk text => "data: " ++ text ++ "\n\n"
  | .done => "data: [DONE]\n\n"
  | .error msg => "data: Error: " ++ msg ++ "\n\n"

/-- The `async for` loop of `event_generator` (src/main.py lines
417-421) over the events the provider yielded: for each event that has
a non-empty `content`, append the content to `assistant_response` and
yield it as a chunk; skip every other event.  Returns the yielded
chunks in order and the final accumulated `assistant_response`. -/
def processEvents : List StreamEvent → List SSE × String
  | [] => ([], "")
  | e :: es =>
    if e.hasContent ∧ e.content ≠ "" then
      (SSE.chunk e.content :: (processEvents es).1,
       e.content ++ (processEvents es).2)
    else processEvents es

/-- `event_generator` (src/main.py lines 407-432).  `events` is the
list of events the provider stream yielded before it either was
exhausted (`streamErr = none`) or raised (`streamErr = some msg`);
`saveErr` is a possible exception raised by the post-stream
`save_message` call.  On normal exhaustion, a non-empty accumulated
response is saved through a fresh session (modelled by the store state
`save_db` at that time) and `[DONE]` is yielded; an empty accumulated
response skips the save; any exception is caught and turned into a
final `Error` event with nothing saved by the handler. -/
def event_generator (conv_id : String) (events : List StreamEvent)
    (streamErr saveErr : Option String) (save_db : Store) : List SSE × Store :=
  let st := processEvents events
  match streamErr with
  | some e => (st.1 ++ [SSE.error e], save_db)
  | none =>
    if st.2 ≠ "" then
      match saveErr with
      | some e => (st.1 ++ [SSE.error e], save_db)
      | none =>
        (st.1 ++ [SSE.done], save_message save_db conv_id "assistant" st.2)
    else (st.1 ++ [SSE.done], save_db)

/-- Observable result of one whole `/chat/stream` turn: the SSE output,
the final store, and the content of the single `TextMessage` actually
handed to the provider (src/main.py lines 412-413: "Only pass the
latest user message"). -/
structure TurnResult where
  output : List SSE
  db : Store
  providerInput : String
  deriving Repr, DecidableEq

/-- One whole `/chat/stream` turn (src/main.py lines 379-434): run the
handler body, then run the event generator on the store state it left.
The provider is invoked, inside the generator, on a `TextMessage` whose
content is `req.prompt` alone. -/
def chat_turn (db : Store) (current_user_id : String) (req : ChatRequest)
    (events : List StreamEvent) (streamErr saveErr : Option String) : TurnResult :=
  let setup := chat_stream_setup db current_user_id req
  let gen := event_generator req.conv_id events streamErr saveErr setup.db
  { output := gen.1, db := gen.2, providerInput := req.prompt }

/-- Concatenation, in emission order, of the text of all chunk events
in an output sequence. -/
def concatChunks : List SSE → String
  | [] => ""
  | SSE.chunk t :: rest => t ++ concatChunks rest
  | SSE.done :: rest => concatChunks rest
  | SSE.error _ :: rest => concatChunks rest

/-! Title pipeline (src/main.py lines 436-506). -/

/-- The double-quote character removed by `title.replace('"', '')`. -/
def dqChar : Char := Char.ofNat 34

/-- The single-quote character removed by the second `replace`. -/
def sqChar : Char := Char.ofNat 39

/-- Python `str.strip()`: drop whitespace from both ends. -/
def pyStrip (s : String) : String :=
  String.mk
    (((s.toList.dropWhile Char.isWhitespace).reverse.dropWhile
        Char.isWhitespace).reverse)

/-- Python `s.replace(c, "")` for a single character `c`: remove every
occurrence of `c`, wherever it appears in the string. -/
def pyRemoveChar (s : String) (c : Char) : String :=
  String.mk (s.toList.filter (fun x => !(x == c)))

/-- Python code-point slice `s[:n]`. -/
def pySlice (s : String) (n : Nat) : String :=
  String.mk (s.toList.take n)

/-- Title normalization (src/main.py lines 493-496): remove every double
quote, remove every single quote, strip surrounding whitespace; if the
result is longer than 50 characters, keep its first 47 and append the
three-character ellipsis marker. -/
def normalize_title (title0 : String) : String :=
  let title := pyStrip (pyRemoveChar (pyRemoveChar title0 dqChar) sqChar)
  if title.length > 50 then pySlice title 47 ++ "..." else title

/-- The one-shot context sent to the title agent (src/main.py lines
469-484): the fixed instruction followed by one role-labelled line per
loaded message. -/
def titleContext (msgs : List Message) : String :=
  "Generate a title for this conversation:\n\n" ++
    msgs.foldl (fun acc m => acc ++ roleLabel m.role ++ ": " ++ m.content ++ "\n") ""

/-- Update of `conversation.title` followed by `db.commit()`
(src/main.py lines 499-500). -/
def set_conversation_title (db : Store) (conv_id title : String) : Store :=
  { db with
    conversations := db.conversations.map
      (fun c => if c.id == conv_id then { c with title := title } else c) }

/-- HTTP-level outcome of the title endpoint: a 404, or a success body
with a title string. -/
inductive TitleOutcome where
  | notFound
  | ok (title : String)
  deriving Repr, DecidableEq

/-- Observable result of one title request: the response, the resulting
store, and the context actually sent to the provider (`none` when the
provider was never invoked). -/
structure TitleResult where
  response : TitleOutcome
  db : Store
  providerContext : Option String
  deriving Repr, DecidableEq

/-- `generate_conversation_title` (src/main.py lines 436-506).
`provider` models the `title_agent.on_messages` call: `.error msg` when
it raises, `.ok none` when the response lacks a truthy `chat_message`,
`.ok (some content)` when it returns content.  `commitFails` models an
exception raised by the `db.commit()` persisting the title; a failed
commit leaves the stored conversation unchanged.  Every exception inside
the `try` is caught and answered with the fixed `"Conversation"` title;
an ownership-checked lookup miss is a 404; an empty message history
returns the placeholder title without touching the provider. -/
def generate_conversation_title (db : Store) (current_user_id conv_id : String)
    (provider : Except String (Option String)) (commitFails : Bool) : TitleResult :=
  match db.conversations.find? (fun c => c.id == conv_id && c.userId == current_user_id) with
  | none => { response := .notFound, db := db, providerContext := none }
  | some _ =>
    let msgs := (conversation_messages db conv_id).take 10
    if msgs.isEmpty then
      { response := .ok "New Conversation", db := db, providerContext := none }
    else
      let ctx := titleContext msgs
      match provider with
      | .error _ =>
        { response := .ok "Conversation", db := db, providerContext := some ctx }
      | .ok resp =>
        let title0 := match resp with
          | some c => pyStrip c
          | none => "Conversation"
        let title := normalize_title title0
        if commitFails then
          { response := .ok "Conversation", db := db, providerContext := some ctx }
        else
          { response := .ok title,
            db := set_conversation_title db conv_id title,
            providerContext := some ctx }

/-! Spec-side definitions, used only to compare the code's behavior with
the specification's wording where the two may differ. -/

/-- The provider context as the specification describes it (spec section
4.1 step 3): the rendered history, each prior message labelled by its
role in chronological order, followed by the new prompt. -/
def spec_provider_context (history : List Message) (prompt : String) : String :=
  build_context history ++ prompt

/-- Characters the specification says are stripped from the ends of a
title: quote characters and whitespace. -/
def isQuoteOrSpace (c : Char) : Bool :=
  c == dqChar || c == sqChar || c.isWhitespace

/-- Title normalization as the specification words it: strip leading and
trailing quote characters and whitespace, preserving interior
characters; truncate exactly as the code does. -/
def spec_normalize_title (raw : String) : String :=
  let t := String.mk
    (((raw.toList.dropWhile isQuoteOrSpace).reverse.dropWhile isQuoteOrSpace).reverse)
  if t.length > 50 then pySlice t 47 ++ "..." else t

/-- Title normalization as the amended claim words it: every quote
character — double or single, wherever it appears in the string — is
removed in one pass, the result is stripped of surrounding whitespace,
and a result longer than 50 characters is cut to its first 47 with the
three-character ellipsis appended. -/
def amended_normalize_title (raw : String) : String :=
  let t := pyStrip (String.mk
    (raw.toList.filter (fun c => !(c == dqChar || c == sqChar))))
  if t.length > 50 then pySlice t 47 ++ "..." else t

/-! Concrete fixtures used by counterexamples and witnesses. -/

/-- A stored message in conversation `c`. -/
def exMessage : Message :=
  { id := "0", role := "user", content := "hello", conversationId := "c", createdAt := 0 }

/-- A stored conversation owned by `alice`. -/
def exConv : Conversation :=
  { id := "c", title := "T", userId := "alice", createdAt := 0 }

/-- A store holding `exConv` with the single message `exMessage`. -/
def exStore : Store :=
  { conversations := [exConv], messages := [exMessage], clock := 1 }

/-- A chat request from `alice` on conversation `c`. -/
def exReq : ChatRequest := { user_id := "alice", conv_id := "c", prompt := "hi" }

/-! Helper lemmas about the event loop. -/

/-- Concatenation of chunk texts distributes over list append. -/
theorem concatChunks_append (l r : List SSE) :
    concatChunks (l ++ r) = concatChunks l ++ concatChunks r := by
  induction l with
  | nil => simp [concatChunks]
  | cons h t ih => cases h <;> simp [concatChunks, ih, String.append_assoc]

/-- Every event the loop yields is a chunk, never a terminal marker. -/
theorem processEvents_no_terminal (es : List StreamEvent) :
    ∀ s ∈ (processEvents es).1, s.isTerminal = false := by
  induction es with
  | nil => simp [processEvents]
  | cons e es ih =>
    by_cases h : e.hasContent ∧ e.content ≠ ""
    · simp only [processEvents, if_pos h]
      intro s hs
      rcases List.mem_cons.mp hs with hs | hs
      · subst hs; rfl
      · exact ih s hs
    · simpa only [processEvents, if_neg h] using ih

/-- The accumulated buffer is exactly the concatenation of the yielded
chunks, in order. -/
theorem concatChunks_processEvents (es : List StreamEvent) :
    concatChunks (processEvents es).1 = (processEvents es).2 := by
  induction es with
  | nil => rfl
  | cons e es ih =>
    by_cases h : e.hasContent ∧ e.content ≠ ""
    · simp [processEvents, if_pos h, concatChunks, ih]
    · simp [processEvents, if_neg h, ih]

/-- The event generator never removes stored messages: anything stored
when it starts is still stored when it finishes. -/
theorem event_generator_keeps_messages (conv_id : String) (events : List StreamEvent)
    (streamErr saveErr : Option String) (save_db : Store) (m : Message)
    (hm : m ∈ save_db.messages) :
    m ∈ (event_generator conv_id events streamErr saveErr save_db).2.messages := by
  unfold event_generator
  cases streamErr with
  | some e => exact hm
  | none =>
    dsimp only
    split
    · cases saveErr with
      | some e => exact hm
      | none => exact List.mem_append_left _ hm
    · exact hm

/-! Claim theorems. -/

/-- C1: for every successful chat turn (the provider stream is exhausted
without raising, and the post-stream save does not raise), the
concatenation, in emission order, of all text chunks emitted by the
stream equals exactly the content of the assistant Message persisted
for that turn: the final store is the pre-stream store plus one
assistant message whose content is the chunk concatenation. -/
theorem chunks_concat_eq_persisted_assistant (db : Store) (uid : String)
    (req : ChatRequest) (events : List StreamEvent)
    (hne : (processEvents events).2 ≠ "") :
    ∃ m : Message,
      (chat_turn db uid req events none none).db.messages
        = (chat_stream_setup db uid req).db.messages ++ [m] ∧
      m.role = "assistant" ∧
      m.content = concatChunks (chat_turn db uid req events none none).output := by
  refine ⟨{ id := toString ((chat_stream_setup db uid req).db).clock,
            role := "assistant", content := (processEvents events).2,
            conversationId := req.conv_id,
            createdAt := ((chat_stream_setup db uid req).db).clock },
          ?_, rfl, ?_⟩
  · show (event_generator req.conv_id events none none
        (chat_stream_setup db uid req).db).2.messages = _
    unfold event_generator
    simp [hne, save_message]
  · show (processEvents events).2
      = concatChunks (event_generator req.conv_id events none none
          (chat_stream_setup db uid req).db).1
    unfold event_generator
    simp [hne, concatChunks_append, concatChunks, concatChunks_processEvents]

/-- C1 witness: a concrete successful turn with two content chunks. -/
theorem chunks_concat_eq_persisted_assistant_witness :
    ∃ m : Message,
      (chat_turn exStore "alice" exReq
          [⟨true, "Hel"⟩, ⟨false, "skip"⟩, ⟨true, "lo"⟩] none none).db.messages
        = (chat_stream_setup exStore "alice" exReq).db.messages ++ [m] ∧
      m.role = "assistant" ∧
      m.content = concatChunks (chat_turn exStore "alice" exReq
          [⟨true, "Hel"⟩, ⟨false, "skip"⟩, ⟨true, "lo"⟩] none none).output :=
  chunks_concat_eq_persisted_assistant exStore "alice" exReq
    [⟨true, "Hel"⟩, ⟨false, "skip"⟩, ⟨true, "lo"⟩] (by decide)

/-- C2: the user Message (role user, content the prompt) is persisted by
the handler body — i.e. it is already in the store handed to the event
generator, before the provider is invoked — and it is still in the
final store whatever the provider or the save later does (stream raised,
save raised, or success). -/
theorem user_message_persisted_before_provider (db : Store) (uid : String)
    (req : ChatRequest) (events : List StreamEvent)
    (streamErr saveErr : Option String) :
    ∃ m : Message,
      m ∈ (chat_stream_setup db uid req).db.messages ∧
      m.role = "user" ∧ m.content = req.prompt ∧ m.conversationId = req.conv_id ∧
      m ∈ (chat_turn db uid req events streamErr saveErr).db.messages := by
  refine ⟨{ id := toString ((get_or_create_conversation db uid req.conv_id).1).clock,
            role := "user", content := req.prompt, conversationId := req.conv_id,
            createdAt := ((get_or_create_conversation db uid req.conv_id).1).clock },
          ?_, rfl, rfl, rfl, ?_⟩
  · show _ ∈ (save_message ((get_or_create_conversation db uid req.conv_id).1)
        req.conv_id "user" req.prompt).messages
    unfold save_message
    exact List.mem_append_right _ (List.mem_singleton.mpr rfl)
  · show _ ∈ (event_generator req.conv_id events streamErr saveErr
        (chat_stream_setup db uid req).db).2.messages
    apply event_generator_keeps_messages
    show _ ∈ (save_message ((get_or_create_conversation db uid req.conv_id).1)
        req.conv_id "user" req.prompt).messages
    unfold save_message
    exact List.mem_append_right _ (List.mem_singleton.mpr rfl)

/-- C4: every turn's output is a (possibly empty) list of plain chunk
events followed by exactly one terminal marker — never zero markers and
never two; a fully successful turn ends in the literal `[DONE]` event,
a turn whose provider stream raises ends in the single
`Error: <message>` event carrying that exception, and a turn whose
post-stream persistence of a non-empty buffer raises likewise ends in
the single `Error: <message>` event carrying that exception. -/
theorem turn_output_single_terminal (db : Store) (uid : String) (req : ChatRequest)
    (events : List StreamEvent) (streamErr saveErr : Option String) :
    (∃ pre t, (chat_turn db uid req events streamErr saveErr).output = pre ++ [t] ∧
      t.isTerminal = true ∧ ∀ s ∈ pre, s.isTerminal = false) ∧
    (∃ pre, (chat_turn db uid req events none none).output = pre ++ [SSE.done]) ∧
    (∀ e, ∃ pre, (chat_turn db uid req events (some e) saveErr).output
        = pre ++ [SSE.error e]) ∧
    (∀ e, (processEvents events).2 ≠ "" →
      ∃ pre, (chat_turn db uid req events none (some e)).output
        = pre ++ [SSE.error e]) := by
  refine ⟨?_, ?_, ?_, ?_⟩
  · show ∃ pre t, (event_generator req.conv_id events streamErr saveErr
        (chat_stream_setup db uid req).db).1 = pre ++ [t] ∧ _
    unfold event_generator
    cases streamErr with
    | some e =>
      exact ⟨(processEvents events).1, SSE.error e, rfl, rfl,
        processEvents_no_terminal events⟩
    | none =>
      dsimp only
      split
      · cases saveErr with
        | some e =>
          exact ⟨(processEvents events).1, SSE.error e, rfl, rfl,
            processEvents_no_terminal events⟩
        | none =>
          exact ⟨(processEvents events).1, SSE.done, rfl, rfl,
            processEvents_no_terminal events⟩
      · exact ⟨(processEvents events).1, SSE.done, rfl, rfl,
          processEvents_no_terminal events⟩
  · show ∃ pre, (event_generator req.conv_id events none none
        (chat_stream_setup db uid req).db).1 = pre ++ [SSE.done]
    unfold event_generator
    dsimp only
    split
    · exact ⟨(processEvents events).1, rfl⟩
    · exact ⟨(processEvents events).1, rfl⟩
  · intro e
    exact ⟨(processEvents events).1, rfl⟩
  · intro e h
    show ∃ pre, (event_generator req.conv_id events none (some e)
        (chat_stream_setup db uid req).db).1 = pre ++ [SSE.error e]
    unfold event_generator
    dsimp only
    rw [if_pos h]
    exact ⟨(processEvents events).1, rfl⟩

/-- C4 witness: a concrete turn with a non-empty buffer whose
post-stream save raises ends in the Error marker carrying that
exception. -/
theorem turn_output_single_terminal_witness :
    ∃ pre, (chat_turn exStore "alice" exReq [⟨true, "Hel"⟩] none
        (some "save failed")).output = pre ++ [SSE.error "save failed"] :=
  (turn_output_single_terminal exStore "alice" exReq [⟨true, "Hel"⟩] none
      (some "save failed")).2.2.2 "save failed" (by decide)

/-- C6: when the provider stream is exhausted with an empty accumulated
buffer, no assistant Message is persisted: the store is exactly what it
was when streaming started. -/
theorem empty_response_persists_nothing (db : Store) (uid : String)
    (req : ChatRequest) (events : List StreamEvent) (saveErr : Option String)
    (h : (processEvents events).2 = "") :
    (chat_turn db uid req events none saveErr).db
      = (chat_stream_setup db uid req).db := by
  show (event_generator req.conv_id events none saveErr
      (chat_stream_setup db uid req).db).2 = _
  unfold event_generator
  simp [h]

/-- C6 witness: a stream of one contentless event and one empty-content
event persists nothing beyond the user message. -/
theorem empty_response_persists_nothing_witness :
    (chat_turn exStore "alice" exReq [⟨false, "x"⟩, ⟨true, ""⟩] none none).db
      = (chat_stream_setup exStore "alice" exReq).db :=
  empty_response_persists_nothing exStore "alice" exReq
    [⟨false, "x"⟩, ⟨true, ""⟩] none (by decide)

/-- C3 counterexample: on a conversation whose history is non-empty
(the store holds one prior message), the input actually handed to the
provider is the bare new prompt, not the rendered history followed by
the prompt as the claim states. -/
theorem provider_input_not_history_context :
    conversation_messages exStore "c" ≠ [] ∧
    (chat_turn exStore "alice" exReq [] none none).providerInput ≠
      spec_provider_context (conversation_messages exStore "c") "hi" := by
  constructor
  · decide
  · decide

/-- C3 amended: the context handed to the completion provider is the new
prompt alone; the role-labelled rendering of the history is computed by
the handler (it is the `conversation_context` field of the setup state)
but is never part of the provider input. -/
theorem provider_input_is_prompt_alone (db : Store) (uid : String)
    (req : ChatRequest) (events : List StreamEvent)
    (streamErr saveErr : Option String) :
    (chat_turn db uid req events streamErr saveErr).providerInput = req.prompt ∧
    (chat_stream_setup db uid req).conversation_context
      = build_context (conversation_messages
          ((get_or_create_conversation db uid req.conv_id).1) req.conv_id) :=
  ⟨rfl, rfl⟩

/-- C9: the chat-stream handler checks no ownership: on an existing
conversation the whole observable turn result (output, final store,
provider input) is identical for any two authenticated users, owner or
not. -/
theorem turn_ignores_ownership (db : Store) (u1 u2 : String) (req : ChatRequest)
    (events : List StreamEvent) (streamErr saveErr : Option String)
    (c : Conversation) (hex : find_conversation db req.conv_id = some c) :
    chat_turn db u1 req events streamErr saveErr
      = chat_turn db u2 req events streamErr saveErr := by
  unfold chat_turn chat_stream_setup get_or_create_conversation
  rw [hex]

/-- C9 witness: on the concrete store the turn of `alice` (the owner)
equals the turn of `mallory` (not the owner). -/
theorem turn_ignores_ownership_witness :
    chat_turn exStore "alice" exReq [⟨true, "ok"⟩] none none
      = chat_turn exStore "mallory" exReq [⟨true, "ok"⟩] none none :=
  turn_ignores_ownership exStore "alice" "mallory" exReq [⟨true, "ok"⟩]
    none none exConv (by decide)

/-- C5 counterexample: on an input with interior quote characters the
code's normalization removes them, while the claim says interior
characters are preserved (only leading and trailing quotes stripped):
the two normalizations disagree on a concrete input. -/
theorem title_interior_quotes_removed :
    normalize_title "say \"hi\" ok" = "say hi ok" ∧
    spec_normalize_title "say \"hi\" ok" = "say \"hi\" ok" ∧
    normalize_title "say \"hi\" ok" ≠ spec_normalize_title "say \"hi\" ok" := by
  refine ⟨by decide, by decide, by decide⟩

/-- C5 amended: the normalization removes every quote character (double
or single) wherever it appears — not only at the ends — then strips
surrounding whitespace; if the result exceeds 50 characters it is
truncated to its first 47 characters plus the 3-character ellipsis
marker, and the output never exceeds 50 characters (inputs whose
cleaned form is at most 50 characters long pass through untruncated). -/
theorem normalize_title_amended (raw : String) :
    normalize_title raw = amended_normalize_title raw ∧
    (normalize_title raw).length ≤ 50 := by
  have hq : pyRemoveChar (pyRemoveChar raw dqChar) sqChar
      = String.mk (raw.toList.filter (fun c => !(c == dqChar || c == sqChar))) := by
    unfold pyRemoveChar
    show String.mk ((raw.toList.filter _).filter _) = _
    rw [List.filter_filter]
    congr 1
    apply List.filter_congr
    intro c _
    cases h1 : c == dqChar <;> cases h2 : c == sqChar <;> rfl
  constructor
  · unfold normalize_title amended_normalize_title
    rw [hq]
  · unfold normalize_title
    rw [hq]
    dsimp only
    split
    · rw [String.length_append]
      have h1 : (pySlice (pyStrip (String.mk
          (raw.toList.filter (fun c => !(c == dqChar || c == sqChar))))) 47).length
          ≤ 47 := by
        unfold pySlice
        rw [String.length_mk]
        exact List.length_take_le 47 _
      have h2 : ("..." : String).length = 3 := by decide
      omega
    · omega

/-- Helper: a non-empty chronological history still has a non-empty
first-ten window. -/
theorem take_ten_not_empty (db : Store) (cid : String)
    (h : conversation_messages db cid ≠ []) :
    ((conversation_messages db cid).take 10).isEmpty = false := by
  cases hl : conversation_messages db cid with
  | nil => exact absurd hl h
  | cons a l => simp [hl]

/-- C7: once the conversation is found (and it has messages, so the
provider is actually invoked), a provider exception never propagates:
the endpoint still answers success with the fixed default title. -/
theorem title_provider_error_returns_default (db : Store) (uid cid err : String)
    (cf : Bool) (c : Conversation)
    (hfound : db.conversations.find? (fun k => k.id == cid && k.userId == uid)
      = some c)
    (hmsgs : conversation_messages db cid ≠ []) :
    (generate_conversation_title db uid cid (Except.error err) cf).response
      = TitleOutcome.ok "Conversation" := by
  unfold generate_conversation_title
  rw [hfound]
  simp [take_ten_not_empty db cid hmsgs]

/-- C7 witness: a concrete provider failure on the stored conversation
still yields the default title. -/
theorem title_provider_error_returns_default_witness :
    (generate_conversation_title exStore "alice" "c"
        (Except.error "boom") false).response = TitleOutcome.ok "Conversation" :=
  title_provider_error_returns_default exStore "alice" "c" "boom" false exConv
    (by decide) (by decide)

/-- C8: the context sent to the provider is built from at most the first
10 messages in chronological order, and a conversation with no messages
answers the fixed placeholder with the provider never invoked (and the
store untouched). -/
theorem title_loads_first_ten (db : Store) (uid cid : String)
    (provider : Except String (Option String)) (cf : Bool) (c : Conversation)
    (hfound : db.conversations.find? (fun k => k.id == cid && k.userId == uid)
      = some c) :
    (conversation_messages db cid = [] →
      (generate_conversation_title db uid cid provider cf).response
          = TitleOutcome.ok "New Conversation" ∧
      (generate_conversation_title db uid cid provider cf).providerContext = none ∧
      (generate_conversation_title db uid cid provider cf).db = db) ∧
    (conversation_messages db cid ≠ [] →
      (generate_conversation_title db uid cid provider cf).providerContext
        = some (titleContext ((conversation_messages db cid).take 10))) := by
  unfold generate_conversation_title
  rw [hfound]
  constructor
  · intro h
    simp [h]
  · intro h
    simp only [take_ten_not_empty db cid h, Bool.false_eq_true, if_false]
    cases provider with
    | error e => rfl
    | ok resp => cases cf <;> rfl

/-- C8 witness: on the concrete store the placeholder branch is
unreachable (history non-empty) and the provider context is built from
the first-ten window. -/
theorem title_loads_first_ten_witness :
    (generate_conversation_title exStore "alice" "c"
        (Except.ok (some "A title")) false).providerContext
      = some (titleContext ((conversation_messages exStore "c").take 10)) :=
  (title_loads_first_ten exStore "alice" "c" (Except.ok (some "A title")) false
    exConv (by decide)).2 (by decide)

/-- C10: every title-generation path that misses the success branch —
empty message history, a provider exception, or a failed commit — leaves
the store (hence the stored conversation title) unchanged; the success
path alone overwrites the title with the normalized provider result. -/
theorem title_store_unchanged_off_success (db : Store) (uid cid : String)
    (provider : Except String (Option String)) (cf : Bool) :
    ((conversation_messages db cid = [] ∨ (∃ e, provider = Except.error e) ∨
        cf = true) →
      (generate_conversation_title db uid cid provider cf).db = db) ∧
    (∀ c raw,
      db.conversations.find? (fun k => k.id == cid && k.userId == uid) = some c →
      conversation_messages db cid ≠ [] → provider = Except.ok (some raw) →
      cf = false →
      (generate_conversation_title db uid cid provider cf).db
        = set_conversation_title db cid (normalize_title (pyStrip raw))) := by
  constructor
  · intro h
    unfold generate_conversation_title
    cases hf : db.conversations.find? (fun k => k.id == cid && k.userId == uid) with
    | none => rfl
    | some c =>
      dsimp only
      rcases h with h | ⟨e, he⟩ | hcf
      · simp [h]
      · subst he
        split
        · rfl
        · rfl
      · subst hcf
        split
        · rfl
        · cases provider with
          | error e => rfl
          | ok resp => rfl
  · intro c raw hfound hmsgs hok hcf
    subst hok
    subst hcf
    unfold generate_conversation_title
    rw [hfound]
    simp [take_ten_not_empty db cid hmsgs]

/-- C10 witness: a concrete provider failure leaves the concrete store
(and so the stored title) unchanged. -/
theorem title_store_unchanged_off_success_witness :
    (generate_conversation_title exStore "alice" "c"
        (Except.error "boom") false).db = exStore :=
  (title_store_unchanged_off_success exStore "alice" "c"
      (Except.error "boom") false).1 (Or.inr (Or.inl ⟨"boom", rfl⟩))

end ChatbotAutogen
